import Mathlib

/-!
Verification of the music-studio backend (src/music-studio/backend).

The audio-analysis endpoints `analyze` and `compare_songs` in app.py are thin
orchestrations around library calls (librosa / numpy).  We embed the
orchestration logic itself faithfully: the outcome of each library call is a
parameter of the embedded route (an `Except String _` value, `Except.error`
modelling a raised Python exception), and the pure computations the route
performs on those outcomes (np.argmax, the key-name lookup, np.corrcoef, the
match-level thresholds, the response construction and the single generic
`except` handler) are translated directly from the source.

Python floats are modelled as exact rationals/reals; a float NaN (which
np.corrcoef produces for a zero-variance profile) is modelled as `none` in
`Option ℝ`, with every IEEE comparison against NaN being false.
-/

namespace MusicStudio

/-- The pitch-class name table of app.py lines 354 and 409: the twelve
semitone names from C to B in index order (written here as two halves,
appended, for no deeper reason than formatting). -/
def keys : List String :=
  ["C", "C#", "D", "D#", "E", "F"] ++ ["F#", "G", "G#", "A", "A#", "B"]

/-- A Python float value: `some x` is an ordinary (exactly represented) value,
`none` is NaN. -/
abbrev PyFloat := Option ℝ

/-- IEEE-754 `similarity > c` on a possibly-NaN left operand: every comparison
with NaN is false. -/
def floatGT : PyFloat → ℝ → Prop
  | none, _ => False
  | some x, c => c < x

section
open Classical

/-- get_match_level, app.py lines 441-452, translated branch for branch:
`if similarity > 0.8: 'Very High' elif similarity > 0.6: 'High'
elif similarity > 0.4: 'Medium' elif similarity > 0.2: 'Low' else 'Very Low'`. -/
noncomputable def get_match_level (similarity : PyFloat) : String :=
  if floatGT similarity 0.8 then "Very High"
  else if floatGT similarity 0.6 then "High"
  else if floatGT similarity 0.4 then "Medium"
  else if floatGT similarity 0.2 then "Low"
  else "Very Low"

end

/-- User.to_dict input: the User model columns, models.py lines 9-15.
`email` is nullable, hence `Option`; `created_at` is kept abstract as its
isoformat string. -/
structure User where
  id : ℕ
  username : String
  email : Option String
  password : String
  created_at : String

/-- The dictionary shape User.to_dict returns, models.py lines 21-28: exactly
the four keys id, username, email, created_at. -/
structure UserDict where
  id : ℕ
  username : String
  email : Option String
  created_at : String
deriving DecidableEq

/-- User.to_dict, models.py lines 21-28. -/
def User.to_dict (u : User) : UserDict :=
  { id := u.id, username := u.username, email := u.email,
    created_at := u.created_at }

/-- The maximum value of a rational vector (np.max semantics; the empty case
never arises, the chroma matrix always has 12 rows). -/
def maxOf : List ℚ → ℚ
  | [] => 0
  | a :: l => l.foldl max a

/-- np.argmax semantics, app.py line 353: the first index at which the
maximum value of the vector occurs (numpy documents that ties are resolved
to the first occurrence). -/
def argmax (l : List ℚ) : ℕ := l.indexOf (maxOf l)

/-- np.sum(chroma, axis=1), app.py line 353: chroma is a 12-row matrix
(rows = pitch classes, columns = time frames); summing along axis 1 gives the
12-bin time-summed pitch-class profile. -/
def chromaProfile (chroma : List (List ℚ)) : List ℚ := chroma.map List.sum

/-- key_idx = np.argmax(np.sum(chroma, axis=1)), app.py line 353. -/
def keyIdx (chroma : List (List ℚ)) : ℕ := argmax (chromaProfile chroma)

/-- key_name = keys[key_idx], app.py lines 354-355 (the index is always in
range because the chroma matrix has 12 rows). -/
def keyName (chroma : List (List ℚ)) : String := keys.getD (keyIdx chroma) ""

/-- Arithmetic mean of a rational vector (np.mean; 0 on the empty vector). -/
def mean (l : List ℚ) : ℚ := l.sum / (l.length : ℚ)

/-- Deviations from the mean. -/
def devs (l : List ℚ) : List ℚ := l.map (fun v => v - mean l)

/-- Scatter (unnormalized covariance) of two equal-length vectors:
the sum of products of deviations.  np.cov normalizes this by 1/(n-1), but
that factor cancels in the correlation coefficient, so the embedding drops
it. `sDot x x` is zero exactly when x has zero variance. -/
def sDot (x y : List ℚ) : ℚ :=
  (List.zipWith (fun a b => a * b) (devs x) (devs y)).sum

/-- np.corrcoef(x, y)[0, 1], app.py lines 412-415: the Pearson correlation
coefficient cov(x,y) / (σx·σy), clipped to [-1, 1] (np.corrcoef clips).
When either variance is zero the float computation is 0/0 = NaN, modelled as
`none`. -/
noncomputable def corrcoef01 (x y : List ℚ) : PyFloat :=
  if sDot x x = 0 ∨ sDot y y = 0 then none
  else some (max (-1) (min 1
    ((sDot x y : ℝ) / (Real.sqrt (sDot x x) * Real.sqrt (sDot y y)))))

/-- The JSON payload of a successful analyze response, app.py lines 365-375. -/
structure AnalysisPayload where
  tempo : ℚ
  key : String
  duration : ℚ
  sample_rate : ℕ
  num_beats : ℕ
deriving DecidableEq

/-- Outcomes of the library calls made inside the try-block of `analyze`,
app.py lines 341-361, in source order: librosa.load, librosa.get_duration,
librosa.beat.beat_track, librosa.feature.chroma_stft, db.session.commit.
`Except.error msg` models the call raising an exception with message msg;
`Except.ok` carries the returned value ((samples, sample rate), duration,
(tempo, beat_frames), chroma matrix). -/
structure LibAnalysis where
  load : Except String (List ℚ × ℕ)
  duration : Except String ℚ
  beat : Except String (ℚ × List ℕ)
  chroma : Except String (List (List ℚ))
  commit : Except String Unit

/-- The try-block of `analyze`, app.py lines 341-375: each library call in
source order; the first exception aborts the block (propagating to the single
`except` handler); otherwise the response payload is assembled exactly as in
the source (tempo and duration verbatim, key via np.argmax over the summed
chroma, num_beats = len(beat_frames)). -/
def analyzeTry (lib : LibAnalysis) : Except String AnalysisPayload :=
  match lib.load with
  | .error e => .error e
  | .ok (_, sr) =>
    match lib.duration with
    | .error e => .error e
    | .ok dur =>
      match lib.beat with
      | .error e => .error e
      | .ok (tempo, beats) =>
        match lib.chroma with
        | .error e => .error e
        | .ok c =>
          match lib.commit with
          | .error e => .error e
          | .ok _ => .ok ⟨tempo, keyName c, dur, sr, beats.length⟩

/-- The possible responses of the analyze route, app.py lines 326-379:
404 'Song not found', 404 'Audio file not found', 200 with the analysis
payload, or the generic 500 from the except handler.  There is no other
shape: in particular no response constructor carries an error kind. -/
inductive AnalyzeResponse where
  | songNotFound
  | fileNotFound
  | ok (songId : ℕ) (p : AnalysisPayload)
  | failed (msg : String)
deriving DecidableEq

/-- The analyze route, app.py lines 326-379: the two lookup guards, then the
try-block; any exception e is caught by the single handler and mapped to the
500 response 'Analysis failed: ' + str(e). -/
def analyzeRoute (songFound fileExists : Bool) (songId : ℕ)
    (lib : LibAnalysis) : AnalyzeResponse :=
  if songFound = false then .songNotFound
  else if fileExists = false then .fileNotFound
  else
    match analyzeTry lib with
    | .ok p => .ok songId p
    | .error e => .failed ("Analysis failed: " ++ e)

/-- Outcomes of the per-track library calls made inside the try-block of
`compare_songs`, app.py lines 396-404: librosa.load, librosa.beat.beat_track,
librosa.feature.chroma_stft. -/
structure LibTrack where
  load : Except String (List ℚ × ℕ)
  beat : Except String (ℚ × List ℕ)
  chroma : Except String (List (List ℚ))

/-- The JSON payload of a successful compare response, app.py lines 417-434:
the two per-song summaries, the similarity (a float that can be NaN) and the
match level. -/
structure ComparePayload where
  id1 : ℕ
  title1 : String
  tempo1 : ℚ
  key1 : String
  id2 : ℕ
  title2 : String
  tempo2 : ℚ
  key2 : String
  similarity : PyFloat
  matchLevel : String

/-- The try-block of `compare_songs`, app.py lines 395-434, with the library
calls in source order (load1, load2, beat1, beat2, chroma1, chroma2); the
similarity is np.corrcoef of the two summed chroma profiles and the match
level is get_match_level of that similarity. -/
noncomputable def compareTry (id1 : ℕ) (title1 : String) (id2 : ℕ)
    (title2 : String) (l1 l2 : LibTrack) : Except String ComparePayload :=
  match l1.load with
  | .error e => .error e
  | .ok _ =>
    match l2.load with
    | .error e => .error e
    | .ok _ =>
      match l1.beat with
      | .error e => .error e
      | .ok (tempo1, _) =>
        match l2.beat with
        | .error e => .error e
        | .ok (tempo2, _) =>
          match l1.chroma with
          | .error e => .error e
          | .ok c1 =>
            match l2.chroma with
            | .error e => .error e
            | .ok c2 =>
              .ok ⟨id1, title1, tempo1, keyName c1,
                id2, title2, tempo2, keyName c2,
                corrcoef01 (chromaProfile c1) (chromaProfile c2),
                get_match_level
                  (corrcoef01 (chromaProfile c1) (chromaProfile c2))⟩

/-- The possible responses of the compare route, app.py lines 382-438:
404 'One or both songs not found', 200 with the comparison payload, or the
generic 500 from the except handler. -/
inductive CompareResponse where
  | notFound
  | ok (p : ComparePayload)
  | failed (msg : String)

/-- The compare route, app.py lines 382-438: the lookup guard, then the
try-block; any exception e is caught by the single handler and mapped to the
500 response 'Comparison failed: ' + str(e). -/
noncomputable def compareRoute (bothFound : Bool) (id1 : ℕ) (title1 : String)
    (id2 : ℕ) (title2 : String) (l1 l2 : LibTrack) : CompareResponse :=
  if bothFound = false then .notFound
  else
    match compareTry id1 title1 id2 title2 l1 l2 with
    | .ok p => .ok p
    | .error e => .failed ("Comparison failed: " ++ e)

/-- Observer extracting the similarity field from a compare response:
`some s` when the response is the 200 payload with similarity s, `none` when
the request failed. -/
def respSimilarity : CompareResponse → Option PyFloat
  | .ok p => some p.similarity
  | _ => none

/-- The chroma matrix librosa.feature.chroma_stft returns for an all-zero
(silent) signal: every STFT magnitude is zero, so every chroma bin is zero
(librosa.util.normalize leaves all-below-threshold columns untouched). -/
def silentChroma : List (List ℚ) := List.replicate 12 (List.replicate 8 0)

/-- Library-call outcomes for `analyze` on a pure-silence WAV: librosa.load
decodes it to an all-zero buffer, librosa.beat.beat_track hits its explicit
silence check (all-zero onset envelope) and returns tempo 0.0 with an empty
beat array rather than raising, and the chroma matrix is all-zero.  No call
raises. -/
def silentLib : LibAnalysis :=
  { load := .ok (List.replicate 4096 0, 22050)
    duration := .ok (4096 / 22050)
    beat := .ok (0, [])
    chroma := .ok silentChroma
    commit := .ok () }

/-- Per-track library-call outcomes for `compare_songs` on the same
pure-silence WAV. -/
def silentTrack : LibTrack :=
  { load := .ok (List.replicate 4096 0, 22050)
    beat := .ok (0, [])
    chroma := .ok silentChroma }

/-- The analysis payload `analyze` produces for the silent input. -/
def silentPayload : AnalysisPayload :=
  ⟨0, "C", 4096 / 22050, 22050, 0⟩

/-- The comparison payload `compare_songs` produces when both songs are the
silent track: the correlation of the all-zero profiles is NaN and the match
level is "Very Low". -/
def silentComparePayload : ComparePayload :=
  ⟨1, "a", 0, "C", 2, "b", 0, "C", none, "Very Low"⟩

/-- A library outcome whose very first call (librosa.load) raises. -/
def libLoadFail : LibAnalysis :=
  { load := .error "boom"
    duration := .ok 1
    beat := .ok (120, [])
    chroma := .ok silentChroma
    commit := .ok () }

/-- A library outcome where loading succeeds but beat tracking raises with
the same message. -/
def libBeatFail : LibAnalysis :=
  { load := .ok (List.replicate 4096 0, 22050)
    duration := .ok 1
    beat := .error "boom"
    chroma := .ok silentChroma
    commit := .ok () }

/-- A concrete chroma matrix with a nondegenerate (nonconstant) profile:
profile [2, 0, ..., 0]. -/
def toneChroma : List (List ℚ) :=
  [[2], [0], [0], [0], [0], [0], [0], [0], [0], [0], [0], [0]]

/-- Per-track library outcomes for a track whose chroma profile is
nondegenerate; used as the self-comparison witness. -/
def toneTrack : LibTrack :=
  { load := .ok (List.replicate 4096 0, 44100)
    beat := .ok (117, [3, 7])
    chroma := .ok toneChroma }

/-- A concrete chroma matrix used as the key-estimation witness:
profile [1, 3, 2, 0, ..., 0], maximum at index 1 (pitch class C#). -/
def chromaW : List (List ℚ) :=
  [[1], [3], [2], [0], [0], [0], [0], [0], [0], [0], [0], [0]]

end MusicStudio

namespace MusicStudio

@[simp] theorem floatGT_none (c : ℝ) : floatGT none c = False := rfl

@[simp] theorem floatGT_some (x c : ℝ) : floatGT (some x) c ↔ c < x := Iff.rfl

theorem get_match_level_nan : get_match_level none = "Very Low" := by
  unfold get_match_level
  rw [if_neg (by simp), if_neg (by simp), if_neg (by simp), if_neg (by simp)]

theorem le_foldl_max (l : List ℚ) (a : ℚ) : a ≤ l.foldl max a := by
  induction l generalizing a with
  | nil => exact le_refl a
  | cons b t ih => exact le_trans (le_max_left a b) (ih (max a b))

theorem mem_le_foldl_max {x : ℚ} (l : List ℚ) (a : ℚ) (hx : x ∈ l) :
    x ≤ l.foldl max a := by
  induction l generalizing a with
  | nil => cases hx
  | cons b t ih =>
    rw [List.foldl_cons]
    rcases List.mem_cons.mp hx with h | h
    · rw [h]
      exact le_trans (le_max_right a b) (le_foldl_max t (max a b))
    · exact ih (max a b) h

theorem foldl_max_mem (l : List ℚ) (a : ℚ) :
    l.foldl max a = a ∨ l.foldl max a ∈ l := by
  induction l generalizing a with
  | nil => exact Or.inl rfl
  | cons b t ih =>
    rcases ih (max a b) with h | h
    · by_cases hab : a ≤ b
      · exact Or.inr (by
          rw [List.foldl_cons, h, max_eq_right hab]
          exact List.mem_cons_self b t)
      · exact Or.inl (by rw [List.foldl_cons, h, max_eq_left (le_of_not_le hab)])
    · exact Or.inr (List.mem_cons_of_mem b h)

theorem maxOf_mem {l : List ℚ} (h : l ≠ []) : maxOf l ∈ l := by
  cases l with
  | nil => exact absurd rfl h
  | cons a t =>
    rcases foldl_max_mem t a with h1 | h1
    · rw [show maxOf (a :: t) = t.foldl max a from rfl, h1]
      exact List.mem_cons_self a t
    · exact List.mem_cons_of_mem a h1

theorem le_maxOf {l : List ℚ} {x : ℚ} (hx : x ∈ l) : x ≤ maxOf l := by
  cases l with
  | nil => cases hx
  | cons a t =>
    rcases List.mem_cons.mp hx with h | h
    · exact h ▸ le_foldl_max t a
    · exact mem_le_foldl_max t a h

theorem argmax_lt_length {l : List ℚ} (h : l ≠ []) : argmax l < l.length :=
  List.indexOf_lt_length.mpr (maxOf_mem h)

theorem get_argmax {l : List ℚ} (h : l ≠ []) :
    l.get ⟨argmax l, argmax_lt_length h⟩ = maxOf l :=
  List.indexOf_get (argmax_lt_length h)

theorem get_ne_of_lt_indexOf (l : List ℚ) (a : ℚ) :
    ∀ (j : ℕ) (hj : j < l.length), j < l.indexOf a → l.get ⟨j, hj⟩ ≠ a := by
  induction l with
  | nil => intro j hj _; exact absurd hj (by simp)
  | cons b t ih =>
    intro j hj hlt
    by_cases hba : b = a
    · rw [List.indexOf_cons_eq t hba] at hlt
      exact absurd hlt (Nat.not_lt_zero j)
    · cases j with
      | zero => simpa using hba
      | succ k =>
        rw [List.indexOf_cons_ne t hba] at hlt
        have hk : k < t.length := by
          have := hj
          simp only [List.length_cons] at this
          omega
        have hk2 : k < t.indexOf a := Nat.lt_of_succ_lt_succ hlt
        simpa using ih k hk hk2

theorem getD_le_getD_argmax {l : List ℚ} (h : l ≠ []) (j : ℕ)
    (hj : j < l.length) : l.getD j 0 ≤ l.getD (argmax l) 0 := by
  rw [List.getD_eq_get _ _ hj, List.getD_eq_get _ _ (argmax_lt_length h),
    get_argmax h]
  exact le_maxOf (l.get_mem j hj)

theorem getD_lt_getD_argmax {l : List ℚ} (h : l ≠ []) (j : ℕ)
    (hj : j < argmax l) : l.getD j 0 < l.getD (argmax l) 0 := by
  have hjl : j < l.length := lt_trans hj (argmax_lt_length h)
  have hle := getD_le_getD_argmax h j hjl
  have hne : l.getD j 0 ≠ l.getD (argmax l) 0 := by
    rw [List.getD_eq_get _ _ hjl, List.getD_eq_get _ _ (argmax_lt_length h),
      get_argmax h]
    exact get_ne_of_lt_indexOf l (maxOf l) j hjl hj
  exact lt_of_le_of_ne hle hne

theorem gml_very_high {t : ℝ} (h1 : (0.8 : ℝ) < t) :
    get_match_level (some t) = "Very High" := by
  unfold get_match_level
  rw [if_pos (show floatGT (some t) 0.8 from h1)]

theorem gml_high {t : ℝ} (h1 : (0.6 : ℝ) < t) (h2 : t ≤ 0.8) :
    get_match_level (some t) = "High" := by
  unfold get_match_level
  rw [if_neg (show ¬floatGT (some t) 0.8 from not_lt.mpr h2),
    if_pos (show floatGT (some t) 0.6 from h1)]

theorem gml_medium {t : ℝ} (h1 : (0.4 : ℝ) < t) (h2 : t ≤ 0.6) :
    get_match_level (some t) = "Medium" := by
  unfold get_match_level
  rw [if_neg (show ¬floatGT (some t) 0.8 from not_lt.mpr (by linarith)),
    if_neg (show ¬floatGT (some t) 0.6 from not_lt.mpr h2),
    if_pos (show floatGT (some t) 0.4 from h1)]

theorem gml_low {t : ℝ} (h1 : (0.2 : ℝ) < t) (h2 : t ≤ 0.4) :
    get_match_level (some t) = "Low" := by
  unfold get_match_level
  rw [if_neg (show ¬floatGT (some t) 0.8 from not_lt.mpr (by linarith)),
    if_neg (show ¬floatGT (some t) 0.6 from not_lt.mpr (by linarith)),
    if_neg (show ¬floatGT (some t) 0.4 from not_lt.mpr h2),
    if_pos (show floatGT (some t) 0.2 from h1)]

theorem gml_very_low {t : ℝ} (h1 : t ≤ 0.2) :
    get_match_level (some t) = "Very Low" := by
  unfold get_match_level
  rw [if_neg (show ¬floatGT (some t) 0.8 from not_lt.mpr (by linarith)),
    if_neg (show ¬floatGT (some t) 0.6 from not_lt.mpr (by linarith)),
    if_neg (show ¬floatGT (some t) 0.4 from not_lt.mpr (by linarith)),
    if_neg (show ¬floatGT (some t) 0.2 from not_lt.mpr h1)]

theorem zipWith_mul_comm : ∀ l1 l2 : List ℚ,
    List.zipWith (fun a b => a * b) l1 l2 =
      List.zipWith (fun a b => a * b) l2 l1 := by
  intro l1
  induction l1 with
  | nil => intro l2; cases l2 <;> rfl
  | cons a t ih =>
    intro l2
    cases l2 with
    | nil => rfl
    | cons b s =>
      simp only [List.zipWith_cons_cons, ih s, mul_comm a b]

theorem sDot_comm (x y : List ℚ) : sDot x y = sDot y x := by
  rw [sDot, sDot, zipWith_mul_comm]

theorem zipWith_mul_self : ∀ l : List ℚ,
    List.zipWith (fun a b => a * b) l l = l.map (fun a => a * a) := by
  intro l
  induction l with
  | nil => rfl
  | cons a t ih => simp only [List.zipWith_cons_cons, List.map_cons, ih]

theorem sDot_self_nonneg (x : List ℚ) : 0 ≤ sDot x x := by
  rw [sDot, zipWith_mul_self]
  apply List.sum_nonneg
  intro v hv
  obtain ⟨a, _, rfl⟩ := List.mem_map.mp hv
  exact mul_self_nonneg a

theorem corrcoef01_degenerate {x y : List ℚ}
    (h : sDot x x = 0 ∨ sDot y y = 0) : corrcoef01 x y = none := by
  rw [corrcoef01, if_pos h]

theorem corrcoef01_self {x : List ℚ} (h : sDot x x ≠ 0) :
    corrcoef01 x x = some 1 := by
  rw [corrcoef01, if_neg (by push_neg; exact ⟨h, h⟩)]
  have hpos : (0 : ℝ) < ((sDot x x : ℚ) : ℝ) := by
    have h0 : (0 : ℚ) < sDot x x :=
      lt_of_le_of_ne (sDot_self_nonneg x) (Ne.symm h)
    exact_mod_cast h0
  have hsq : Real.sqrt ((sDot x x : ℚ) : ℝ) * Real.sqrt ((sDot x x : ℚ) : ℝ) =
      ((sDot x x : ℚ) : ℝ) := Real.mul_self_sqrt hpos.le
  rw [hsq, div_self (ne_of_gt hpos)]
  norm_num

theorem corrcoef01_symm (x y : List ℚ) : corrcoef01 x y = corrcoef01 y x := by
  rw [corrcoef01, corrcoef01]
  by_cases hc : sDot x x = 0 ∨ sDot y y = 0
  · rw [if_pos hc, if_pos (Or.symm hc)]
  · rw [if_neg hc, if_neg (fun h => hc (Or.symm h))]
    rw [sDot_comm x y]
    ring_nf

theorem chromaProfile_silent :
    chromaProfile silentChroma = List.replicate 12 0 := by
  simp [chromaProfile, silentChroma]

theorem sDot_silent :
    sDot (chromaProfile silentChroma) (chromaProfile silentChroma) = 0 := by
  rw [chromaProfile_silent, sDot, zipWith_mul_self]
  simp [devs, mean]

theorem analyzeTry_ok (lib : LibAnalysis) (y : List ℚ) (sr : ℕ) (d tempo : ℚ)
    (bf : List ℕ) (c : List (List ℚ))
    (hl : lib.load = .ok (y, sr)) (hd : lib.duration = .ok d)
    (hb : lib.beat = .ok (tempo, bf)) (hc : lib.chroma = .ok c)
    (hm : lib.commit = .ok ()) :
    analyzeTry lib = .ok ⟨tempo, keyName c, d, sr, bf.length⟩ := by
  unfold analyzeTry
  rw [hl, hd, hb, hc, hm]

theorem analyzeRoute_ok (id : ℕ) (lib : LibAnalysis) (p : AnalysisPayload)
    (h : analyzeTry lib = .ok p) : analyzeRoute true true id lib = .ok id p := by
  unfold analyzeRoute
  rw [if_neg (by simp), if_neg (by simp), h]

theorem analyzeRoute_err (id : ℕ) (lib : LibAnalysis) (e : String)
    (h : analyzeTry lib = .error e) :
    analyzeRoute true true id lib = .failed ("Analysis failed: " ++ e) := by
  unfold analyzeRoute
  rw [if_neg (by simp), if_neg (by simp), h]

theorem compareTry_ok (id1 : ℕ) (t1 : String) (id2 : ℕ) (t2 : String)
    (l1 l2 : LibTrack) (v1 v2 : List ℚ × ℕ) (tempo1 tempo2 : ℚ)
    (bf1 bf2 : List ℕ) (c1 c2 : List (List ℚ))
    (hl1 : l1.load = .ok v1) (hl2 : l2.load = .ok v2)
    (hb1 : l1.beat = .ok (tempo1, bf1)) (hb2 : l2.beat = .ok (tempo2, bf2))
    (hc1 : l1.chroma = .ok c1) (hc2 : l2.chroma = .ok c2) :
    compareTry id1 t1 id2 t2 l1 l2 =
      .ok ⟨id1, t1, tempo1, keyName c1, id2, t2, tempo2, keyName c2,
        corrcoef01 (chromaProfile c1) (chromaProfile c2),
        get_match_level (corrcoef01 (chromaProfile c1) (chromaProfile c2))⟩ := by
  unfold compareTry
  rw [hl1, hl2, hb1, hb2, hc1, hc2]

theorem compareRoute_of_ok (id1 : ℕ) (t1 : String) (id2 : ℕ) (t2 : String)
    (l1 l2 : LibTrack) (p : ComparePayload)
    (h : compareTry id1 t1 id2 t2 l1 l2 = .ok p) :
    compareRoute true id1 t1 id2 t2 l1 l2 = .ok p := by
  unfold compareRoute
  rw [if_neg (by simp), h]

theorem compareRoute_of_err (id1 : ℕ) (t1 : String) (id2 : ℕ) (t2 : String)
    (l1 l2 : LibTrack) (e : String)
    (h : compareTry id1 t1 id2 t2 l1 l2 = .error e) :
    compareRoute true id1 t1 id2 t2 l1 l2 =
      .failed ("Comparison failed: " ++ e) := by
  unfold compareRoute
  rw [if_neg (by simp), h]

/-- C1: for every similarity score s, the match label is computed with strict
greater-than thresholds: s > 0.8 yields "Very High", 0.6 < s <= 0.8 yields
"High", 0.4 < s <= 0.6 yields "Medium", 0.2 < s <= 0.4 yields "Low", and
s <= 0.2 yields "Very Low"; in particular a score of exactly 0.6 maps to
"Medium" and a score of exactly 0.2 maps to "Very Low". -/
theorem match_level_thresholds (s : ℝ) :
    ((0.8 : ℝ) < s → get_match_level (some s) = "Very High") ∧
    ((0.6 : ℝ) < s → s ≤ 0.8 → get_match_level (some s) = "High") ∧
    ((0.4 : ℝ) < s → s ≤ 0.6 → get_match_level (some s) = "Medium") ∧
    ((0.2 : ℝ) < s → s ≤ 0.4 → get_match_level (some s) = "Low") ∧
    (s ≤ 0.2 → get_match_level (some s) = "Very Low") ∧
    get_match_level (some 0.6) = "Medium" ∧
    get_match_level (some 0.2) = "Very Low" := by
  refine ⟨fun h1 => gml_very_high h1, fun h1 h2 => gml_high h1 h2,
    fun h1 h2 => gml_medium h1 h2, fun h1 h2 => gml_low h1 h2,
    fun h1 => gml_very_low h1, ?_, ?_⟩
  · exact gml_medium (by norm_num) (by norm_num)
  · exact gml_very_low (by norm_num)

/-- Witness for C1: concrete scores in three different bands. -/
theorem match_level_thresholds_witness :
    ((0.8 : ℝ) < 0.95 ∧ get_match_level (some 0.95) = "Very High") ∧
    ((0.4 : ℝ) < 0.5 ∧ (0.5 : ℝ) ≤ 0.6 ∧
      get_match_level (some 0.5) = "Medium") ∧
    ((0.1 : ℝ) ≤ 0.2 ∧ get_match_level (some 0.1) = "Very Low") := by
  refine ⟨⟨by norm_num, (match_level_thresholds 0.95).1 (by norm_num)⟩,
    ⟨by norm_num, by norm_num,
      (match_level_thresholds 0.5).2.2.1 (by norm_num) (by norm_num)⟩,
    ⟨by norm_num, (match_level_thresholds 0.1).2.2.2.2.1 (by norm_num)⟩⟩

/-- C9: the match-level function is total over all float similarity values:
for every input, including NaN, it returns exactly one of the five labels,
and a NaN similarity falls through every strict comparison and is labeled
"Very Low" rather than producing an error. -/
theorem match_level_total (s : PyFloat) :
    get_match_level s ∈ ["Very High", "High", "Medium", "Low", "Very Low"] ∧
    get_match_level none = "Very Low" := by
  constructor
  · unfold get_match_level
    split_ifs <;> simp
  · exact get_match_level_nan

/-- C10: the serialized user dictionary contains only id, username, email and
created_at (the fields of `UserDict`) and never the password hash:
two users differing only in their password field serialize to identical
dictionaries. -/
theorem to_dict_excludes_password (u : User) (p : String) :
    User.to_dict { u with password := p } = User.to_dict u := rfl

theorem keyName_mem (c : List (List ℚ)) (h12 : c.length = 12) :
    keyName c ∈ keys := by
  have hplen : (chromaProfile c).length = 12 := by simp [chromaProfile, h12]
  have hne : chromaProfile c ≠ [] := by
    intro h
    rw [h] at hplen
    simp at hplen
  have hidx : keyIdx c < keys.length := by
    have := argmax_lt_length hne
    rw [hplen] at this
    exact this
  rw [keyName, List.getD_eq_get _ _ hidx]
  exact keys.get_mem _ hidx

/-- C7: for every chromagram (12 rows, one per pitch class), the key estimate
is keys[argmax(profile)]: it is one of the 12 canonical pitch-class names,
every profile bin is at most the selected bin, and every bin strictly before
the selected one is strictly smaller (ties broken by lowest index). -/
theorem key_estimate_is_argmax (chroma : List (List ℚ))
    (h12 : chroma.length = 12) :
    keyName chroma ∈ keys ∧
    keyIdx chroma < 12 ∧
    keyName chroma = keys.getD (keyIdx chroma) "" ∧
    (∀ j, j < 12 →
      (chromaProfile chroma).getD j 0 ≤
        (chromaProfile chroma).getD (keyIdx chroma) 0) ∧
    (∀ j, j < keyIdx chroma →
      (chromaProfile chroma).getD j 0 <
        (chromaProfile chroma).getD (keyIdx chroma) 0) := by
  have hplen : (chromaProfile chroma).length = 12 := by
    simp [chromaProfile, h12]
  have hne : chromaProfile chroma ≠ [] := by
    intro h
    rw [h] at hplen
    simp at hplen
  have hidx : keyIdx chroma < 12 := by
    have := argmax_lt_length hne
    rw [hplen] at this
    exact this
  refine ⟨keyName_mem chroma h12, hidx, rfl, ?_, ?_⟩
  · intro j hj
    exact getD_le_getD_argmax hne j (by rw [hplen]; exact hj)
  · intro j hj
    exact getD_lt_getD_argmax hne j hj

/-- Witness for C7: a concrete 12-row chromagram whose profile
[1, 3, 2, 0, ..., 0] peaks at index 1. -/
theorem key_estimate_is_argmax_witness :
    chromaW.length = 12 ∧ keyName chromaW ∈ keys ∧
    (chromaProfile chromaW).getD 0 0 ≤
      (chromaProfile chromaW).getD (keyIdx chromaW) 0 := by
  refine ⟨rfl, (key_estimate_is_argmax chromaW rfl).1,
    (key_estimate_is_argmax chromaW rfl).2.2.2.1 0 (by norm_num)⟩

theorem foldl_max_zero : ∀ n : ℕ, (List.replicate n (0 : ℚ)).foldl max 0 = 0 := by
  intro n
  induction n with
  | zero => rfl
  | succ k ih => rw [List.replicate_succ, List.foldl_cons, max_self]; exact ih

theorem keyName_silent : keyName silentChroma = "C" := by
  rw [keyName, keyIdx, chromaProfile_silent]
  have hm : maxOf (List.replicate 12 (0 : ℚ)) = 0 := by
    rw [show (12 : ℕ) = 11 + 1 from rfl, List.replicate_succ]
    exact foldl_max_zero 11
  rw [argmax, hm, show List.replicate 12 (0 : ℚ) = 0 :: List.replicate 11 0 by
    rw [show (12 : ℕ) = 11 + 1 from rfl, List.replicate_succ]]
  rw [List.indexOf_cons_self]
  rfl

theorem chromaProfile_tone :
    chromaProfile toneChroma =
      [2, 0, 0, 0, 0, 0, 0, 0, 0, 0, 0, 0] := by
  simp [chromaProfile, toneChroma]

theorem sDot_tone_ne :
    sDot (chromaProfile toneChroma) (chromaProfile toneChroma) ≠ 0 := by
  rw [chromaProfile_tone]
  norm_num [sDot, devs, mean]

theorem analyzeTry_ok_inv (lib : LibAnalysis) (q : AnalysisPayload)
    (h : analyzeTry lib = .ok q) :
    ∃ y sr d tempo bf c, lib.load = .ok (y, sr) ∧ lib.duration = .ok d ∧
      lib.beat = .ok (tempo, bf) ∧ lib.chroma = .ok c ∧
      lib.commit = .ok () ∧ q = ⟨tempo, keyName c, d, sr, bf.length⟩ := by
  unfold analyzeTry at h
  rcases hl : lib.load with e1 | ⟨y, sr⟩ <;> rw [hl] at h
  · exact absurd h (by simp)
  · rcases hd : lib.duration with e2 | d <;> rw [hd] at h
    · exact absurd h (by simp)
    · rcases hb : lib.beat with e3 | ⟨tempo, bf⟩ <;> rw [hb] at h
      · exact absurd h (by simp)
      · rcases hc : lib.chroma with e4 | c <;> rw [hc] at h
        · exact absurd h (by simp)
        · rcases hm : lib.commit with e5 | u <;> rw [hm] at h
          · exact absurd h (by simp)
          · cases u
            simp only [Except.ok.injEq] at h
            exact ⟨y, sr, d, tempo, bf, c, rfl, rfl, rfl, rfl, rfl, h.symm⟩

/-- C2 corrected, counterexample: on a pair of silent tracks (zero-variance
pitch-class profiles) the compare endpoint does NOT fail: it returns a 200
response whose similarity is NaN (np.corrcoef of two zero-variance vectors)
labeled "Very Low".  No DegenerateProfileError exists anywhere in the code. -/
theorem degenerate_compare_succeeds_with_nan :
    compareRoute true 1 "a" 2 "b" silentTrack silentTrack =
      .ok silentComparePayload := by
  apply compareRoute_of_ok
  have h := compareTry_ok 1 "a" 2 "b" silentTrack silentTrack
    (List.replicate 4096 0, 22050) (List.replicate 4096 0, 22050) 0 0 [] []
    silentChroma silentChroma rfl rfl rfl rfl rfl rfl
  rw [corrcoef01_degenerate (Or.inl sDot_silent), get_match_level_nan,
    keyName_silent] at h
  exact h

/-- C2 amended: for every compare request where all library calls succeed and
at least one pitch-class profile has zero variance, the request succeeds and
the caller receives a NaN similarity labeled "Very Low" (np.corrcoef returns
NaN; nothing raises and no DegenerateProfileError exists). -/
theorem degenerate_similarity_is_nan (id1 : ℕ) (t1 : String) (id2 : ℕ)
    (t2 : String) (l1 l2 : LibTrack) (v1 v2 : List ℚ × ℕ)
    (tempo1 tempo2 : ℚ) (bf1 bf2 : List ℕ) (c1 c2 : List (List ℚ))
    (hl1 : l1.load = .ok v1) (hl2 : l2.load = .ok v2)
    (hb1 : l1.beat = .ok (tempo1, bf1)) (hb2 : l2.beat = .ok (tempo2, bf2))
    (hc1 : l1.chroma = .ok c1) (hc2 : l2.chroma = .ok c2)
    (hdeg : sDot (chromaProfile c1) (chromaProfile c1) = 0 ∨
      sDot (chromaProfile c2) (chromaProfile c2) = 0) :
    compareRoute true id1 t1 id2 t2 l1 l2 =
      .ok ⟨id1, t1, tempo1, keyName c1, id2, t2, tempo2, keyName c2,
        none, "Very Low"⟩ := by
  apply compareRoute_of_ok
  have h := compareTry_ok id1 t1 id2 t2 l1 l2 v1 v2 tempo1 tempo2 bf1 bf2
    c1 c2 hl1 hl2 hb1 hb2 hc1 hc2
  rw [corrcoef01_degenerate hdeg, get_match_level_nan] at h
  exact h

/-- Witness for the amended C2, at the concrete silent tracks. -/
theorem degenerate_similarity_is_nan_witness :
    compareRoute true 3 "c" 4 "d" silentTrack silentTrack =
      .ok ⟨3, "c", 0, keyName silentChroma, 4, "d", 0, keyName silentChroma,
        none, "Very Low"⟩ :=
  degenerate_similarity_is_nan 3 "c" 4 "d" silentTrack silentTrack
    (List.replicate 4096 0, 22050) (List.replicate 4096 0, 22050) 0 0 [] []
    silentChroma silentChroma rfl rfl rfl rfl rfl rfl (Or.inl sDot_silent)

/-- C3 corrected, counterexample: on a pure-silence input the beat-tracking
stage does not fail; librosa returns tempo 0.0 (its silence convention) and
the analyze endpoint returns a 200 response with tempo 0 BPM.  No
InsufficientSignalError exists anywhere in the code. -/
theorem silent_analyze_returns_zero_tempo :
    analyzeRoute true true 1 silentLib = .ok 1 silentPayload ∧
    silentPayload.tempo = 0 := by
  constructor
  · have h := analyzeTry_ok silentLib (List.replicate 4096 0) 22050
      (4096 / 22050) 0 [] silentChroma rfl rfl rfl rfl rfl
    rw [keyName_silent] at h
    exact analyzeRoute_ok 1 silentLib silentPayload h
  · rfl

/-- C3 amended: on a silent signal the analyze endpoint does not fail: the
beat tracker reports tempo 0 and the route passes that 0 BPM through into a
successful response; exceptions in any analysis stage surface only as the
generic 'Analysis failed: ...' message, never as a specific error kind. -/
theorem silent_tempo_passthrough (id : ℕ) (lib : LibAnalysis) (y : List ℚ)
    (sr : ℕ) (d : ℚ) (bf : List ℕ) (c : List (List ℚ))
    (hl : lib.load = .ok (y, sr)) (hd : lib.duration = .ok d)
    (hb : lib.beat = .ok (0, bf)) (hc : lib.chroma = .ok c)
    (hm : lib.commit = .ok ()) :
    analyzeRoute true true id lib = .ok id ⟨0, keyName c, d, sr, bf.length⟩ :=
  analyzeRoute_ok id lib _ (analyzeTry_ok lib y sr d 0 bf c hl hd hb hc hm)

/-- Witness for the amended C3, at the concrete silent library outcomes. -/
theorem silent_tempo_passthrough_witness :
    analyzeRoute true true 7 silentLib =
      .ok 7 ⟨0, keyName silentChroma, 4096 / 22050, 22050, 0⟩ :=
  silent_tempo_passthrough 7 silentLib (List.replicate 4096 0) 22050
    (4096 / 22050) [] silentChroma rfl rfl rfl rfl rfl

/-- C4 corrected, counterexample: two different failing stages (decode
versus beat tracking) raising the same message produce byte-identical
responses: the specific error kind of the failing stage is not propagated,
only the generic 'Analysis failed: ' + str(e) message. -/
theorem error_kind_collapsed :
    analyzeRoute true true 1 libLoadFail = analyzeRoute true true 1 libBeatFail ∧
    analyzeRoute true true 1 libLoadFail = .failed "Analysis failed: boom" ∧
    libLoadFail.load ≠ libBeatFail.load := by
  refine ⟨rfl, rfl, fun h => ?_⟩
  exact Except.noConfusion h

/-- C4 amended: on any stage failure the whole request fails atomically with
no partial result and no retry, and the caller receives a single generic
human-readable message ('Analysis failed: ...' or 'Comparison failed: ...');
the response is always exactly one of: a not-found response, a success
carrying the full payload, or that generic failure. -/
theorem stage_failure_atomic_generic (songFound fileExists : Bool) (id : ℕ)
    (lib : LibAnalysis) (bothFound : Bool) (id1 : ℕ) (t1 : String) (id2 : ℕ)
    (t2 : String) (l1 l2 : LibTrack) :
    (analyzeRoute songFound fileExists id lib = .songNotFound ∨
      analyzeRoute songFound fileExists id lib = .fileNotFound ∨
      (∃ e, analyzeTry lib = .error e ∧
        analyzeRoute songFound fileExists id lib =
          .failed ("Analysis failed: " ++ e)) ∨
      (∃ p, analyzeTry lib = .ok p ∧
        analyzeRoute songFound fileExists id lib = .ok id p)) ∧
    (compareRoute bothFound id1 t1 id2 t2 l1 l2 = .notFound ∨
      (∃ e, compareTry id1 t1 id2 t2 l1 l2 = .error e ∧
        compareRoute bothFound id1 t1 id2 t2 l1 l2 =
          .failed ("Comparison failed: " ++ e)) ∨
      (∃ p, compareTry id1 t1 id2 t2 l1 l2 = .ok p ∧
        compareRoute bothFound id1 t1 id2 t2 l1 l2 = .ok p)) := by
  constructor
  · cases songFound with
    | false => exact Or.inl (by rw [analyzeRoute, if_pos rfl])
    | true =>
      cases fileExists with
      | false =>
        exact Or.inr (Or.inl (by rw [analyzeRoute, if_neg (by simp), if_pos rfl]))
      | true =>
        rcases ht : analyzeTry lib with e | p
        · exact Or.inr (Or.inr (Or.inl ⟨e, rfl, analyzeRoute_err id lib e ht⟩))
        · exact Or.inr (Or.inr (Or.inr ⟨p, rfl, analyzeRoute_ok id lib p ht⟩))
  · cases bothFound with
    | false => exact Or.inl (by rw [compareRoute, if_pos rfl])
    | true =>
      rcases ht : compareTry id1 t1 id2 t2 l1 l2 with e | p
      · exact Or.inr (Or.inl ⟨e, rfl, compareRoute_of_err id1 t1 id2 t2 l1 l2 e ht⟩)
      · exact Or.inr (Or.inr ⟨p, rfl, compareRoute_of_ok id1 t1 id2 t2 l1 l2 p ht⟩)

/-- C5 corrected, counterexample: analysis succeeds on the silent track, yet
comparing that track against itself yields similarity NaN, not 1.0 (the
zero-variance profile makes the self-correlation 0/0). -/
theorem self_compare_silent_not_one :
    analyzeRoute true true 9 silentLib = .ok 9 silentPayload ∧
    respSimilarity (compareRoute true 9 "s" 9 "s" silentTrack silentTrack) =
      some none ∧
    (none : PyFloat) ≠ some 1 := by
  refine ⟨?_, ?_, by simp⟩
  · have h := analyzeTry_ok silentLib (List.replicate 4096 0) 22050
      (4096 / 22050) 0 [] silentChroma rfl rfl rfl rfl rfl
    rw [keyName_silent] at h
    exact analyzeRoute_ok 9 silentLib silentPayload h
  · have h := compareTry_ok 9 "s" 9 "s" silentTrack silentTrack
      (List.replicate 4096 0, 22050) (List.replicate 4096 0, 22050) 0 0 [] []
      silentChroma silentChroma rfl rfl rfl rfl rfl rfl
    rw [corrcoef01_degenerate (Or.inl sDot_silent), get_match_level_nan] at h
    rw [compareRoute_of_ok 9 "s" 9 "s" silentTrack silentTrack _ h]
    rfl

/-- C5 amended: for every track whose pitch-class profile has nonzero
variance, comparing the track against itself yields similarity exactly 1.0
(labeled "Very High"); for a zero-variance profile the self-similarity is
NaN instead. -/
theorem self_similarity_one (id1 : ℕ) (t1 : String) (id2 : ℕ) (t2 : String)
    (l : LibTrack) (v : List ℚ × ℕ) (tempo : ℚ) (bf : List ℕ)
    (c : List (List ℚ)) (hl : l.load = .ok v) (hb : l.beat = .ok (tempo, bf))
    (hc : l.chroma = .ok c)
    (hnd : sDot (chromaProfile c) (chromaProfile c) ≠ 0) :
    compareRoute true id1 t1 id2 t2 l l =
      .ok ⟨id1, t1, tempo, keyName c, id2, t2, tempo, keyName c,
        some 1, "Very High"⟩ := by
  apply compareRoute_of_ok
  have h := compareTry_ok id1 t1 id2 t2 l l v v tempo tempo bf bf c c
    hl hl hb hb hc hc
  rw [corrcoef01_self hnd, gml_very_high (by norm_num : (0.8 : ℝ) < 1)] at h
  exact h

/-- Witness for the amended C5, at a concrete nondegenerate track. -/
theorem self_similarity_one_witness :
    compareRoute true 5 "x" 6 "y" toneTrack toneTrack =
      .ok ⟨5, "x", 117, keyName toneChroma, 6, "y", 117, keyName toneChroma,
        some 1, "Very High"⟩ :=
  self_similarity_one 5 "x" 6 "y" toneTrack (List.replicate 4096 0, 44100)
    117 [3, 7] toneChroma rfl rfl rfl sDot_tone_ne

set_option maxRecDepth 8192 in
/-- C6: the similarity is symmetric: for every pair of library outcomes the
compare endpoint reports the same similarity for (A, B) as for (B, A) —
whenever one succeeds so does the other, with equal similarity values. -/
theorem similarity_symmetric (bothFound : Bool) (id1 : ℕ) (t1 : String)
    (id2 : ℕ) (t2 : String) (l1 l2 : LibTrack) :
    respSimilarity (compareRoute bothFound id1 t1 id2 t2 l1 l2) =
      respSimilarity (compareRoute bothFound id2 t2 id1 t1 l2 l1) := by
  cases bothFound with
  | false => rfl
  | true =>
    rcases hl1 : l1.load with e1 | v1 <;>
    rcases hl2 : l2.load with e2 | v2 <;>
    rcases hb1 : l1.beat with f1 | ⟨tp1, bf1⟩ <;>
    rcases hb2 : l2.beat with f2 | ⟨tp2, bf2⟩ <;>
    rcases hc1 : l1.chroma with g1 | c1 <;>
    rcases hc2 : l2.chroma with g2 | c2 <;>
    simp [compareRoute, compareTry, hl1, hl2, hb1, hb2, hc1, hc2,
      respSimilarity, corrcoef01_symm]

/-- C8 corrected, counterexample: silence is a valid WAV input on which
analyze succeeds, and the returned tempo is 0 BPM, outside [40, 240]. -/
theorem silent_tempo_out_of_range :
    analyzeRoute true true 2 silentLib = .ok 2 silentPayload ∧
    ¬(40 : ℚ) ≤ silentPayload.tempo := by
  constructor
  · have h := analyzeTry_ok silentLib (List.replicate 4096 0) 22050
      (4096 / 22050) 0 [] silentChroma rfl rfl rfl rfl rfl
    rw [keyName_silent] at h
    exact analyzeRoute_ok 2 silentLib silentPayload h
  · norm_num [silentPayload]

/-- C8 amended: for every input on which analyze succeeds (chroma having the
12 rows librosa always produces), the returned key is one of the 12
canonical pitch-class names; the tempo is passed through from the library
unconstrained (0 BPM for silence), not guaranteed to lie in [40, 240]. -/
theorem analyze_key_canonical (id : ℕ) (lib : LibAnalysis)
    (p : AnalysisPayload) (c : List (List ℚ)) (hc : lib.chroma = .ok c)
    (h12 : c.length = 12)
    (hok : analyzeRoute true true id lib = .ok id p) :
    p.key ∈ keys := by
  have hkey : p.key = keyName c := by
    unfold analyzeRoute at hok
    rw [if_neg (by simp), if_neg (by simp)] at hok
    rcases ht : analyzeTry lib with e | q <;> rw [ht] at hok
    · exact absurd hok (by simp)
    · simp only [AnalyzeResponse.ok.injEq, true_and] at hok
      obtain ⟨y, sr, d, tempo, bf, c2, _, _, _, hc2, _, hq⟩ :=
        analyzeTry_ok_inv lib q ht
      have hcc : c2 = c := by
        rw [hc] at hc2
        exact (Except.ok.injEq _ _).mp hc2.symm
      rw [← hok, hq, hcc]
  rw [hkey]
  exact keyName_mem c h12

/-- Witness for the amended C8, at the silent input. -/
theorem analyze_key_canonical_witness : silentPayload.key ∈ keys := by
  have h := analyzeTry_ok silentLib (List.replicate 4096 0) 22050
    (4096 / 22050) 0 [] silentChroma rfl rfl rfl rfl rfl
  rw [keyName_silent] at h
  exact analyze_key_canonical 1 silentLib silentPayload silentChroma rfl rfl
    (analyzeRoute_ok 1 silentLib silentPayload h)

end MusicStudio
